/-
Verification of the stock-screener signal engine and benchmark module.

Shallow embedding of `src/screening/signal_engine.py` and
`src/screening/benchmark.py`.  Python floats are modelled as exact
rationals (ℚ); all scores in the code are sums of integer literals, so
they are modelled as `Int` (the Python `round(score, 1)` is the identity
on them).  The helper functions imported from `phase_indicators`
(`detect_breakout`, `calculate_volume_ratio`, `calculate_rs_slope`) are
external collaborators whose outputs the engine merely consumes; their
results are supplied as inputs to the embedding.  Display-only rounded
metrics stored in `details` (`avg_vol_up`, `avg_vol_down`, `rs_slope`,
the rounded `breakdown_level`) are reporting artifacts and are not
modelled; the sub-scores the scoring logic produces are.
-/
import Mathlib

namespace StockScreener

/-- The `phase_info` dict: `phase` plus the technical fields read with
`phase_info.get(key, 0)` (a missing key defaults to `0`, which the
quantification over ℚ covers). -/
structure PhaseInfo where
  phase : Int
  sma_50 : ℚ
  sma_200 : ℚ
  slope_50 : ℚ
  slope_200 : ℚ
  distance_from_50sma : ℚ
  distance_from_200sma : ℚ
deriving Repr, DecidableEq

/-- The optional `fundamentals` dict: the three keys read by
`score_buy_signal`, each read with a `.get` default (`unknown`,
`unknown`, `neutral`). -/
structure Fundamentals where
  revenue_trend : String
  eps_trend : String
  inventory_signal : String
deriving Repr, DecidableEq

/-- Output of the external `detect_breakout` collaborator as consumed by
`score_buy_signal`: the `is_breakout` flag, the recorded
`breakout_type`, and `breakout_info.get("breakout_level")`
(`none` = key absent). -/
structure BreakoutInfo where
  is_breakout : Bool
  breakout_type : String
  breakout_level : Option ℚ
deriving Repr, DecidableEq

/-- One row of the OHLCV frame, restricted to the columns the signal
engine reads (`Close` and `Volume`). -/
structure Bar where
  close : ℚ
  volume : ℚ
deriving Repr, DecidableEq

/-- The `price_data` frame: its rows, plus whether a `Volume` column is
present (the `Volume in price_data.columns` test). -/
structure PriceData where
  bars : List Bar
  hasVolumeCol : Bool
deriving Repr, DecidableEq

/-- The last `n` elements of a list (pandas `.iloc[-n:]` on a series of
length ≥ n). -/
def lastN {α : Type} (n : Nat) (l : List α) : List α :=
  l.drop (l.length - n)

/-- Maximum of a list of rationals (pandas `.max()`; callers guard
non-emptiness, `0` is a junk value for `[]`). -/
def listMax : List ℚ → ℚ
  | [] => 0
  | x :: xs => xs.foldl max x

/-- The volume loop of `score_buy_signal` (lines 237-246): walks the
consecutive close-to-close changes, pairing change `i` with volume
`i-1`, and accumulates `(up_days, down_days, volume_on_up_days,
volume_on_down_days)`; a non-positive change counts as a down day. -/
def volLoop : List ℚ → List ℚ → Int × Int × ℚ × ℚ
  | c1 :: c2 :: cs, v :: vs =>
    let r := volLoop (c2 :: cs) vs
    if c2 - c1 > 0 then (r.1 + 1, r.2.1, r.2.2.1 + v, r.2.2.2)
    else (r.1, r.2.1 + 1, r.2.2.1, r.2.2.2 + v)
  | _, _ => (0, 0, 0, 0)

/-- Stage-2 quality ladder of `score_buy_signal` (lines 87-119): a
15-point distance ladder plus a 15-point slope ladder. -/
def stage2Quality (pi : PhaseInfo) : Int :=
  (if pi.distance_from_50sma ≥ 5 ∧ pi.distance_from_200sma ≥ 10 then 15
   else if pi.distance_from_50sma ≥ 2 ∧ pi.distance_from_200sma ≥ 5 then 12
   else if pi.distance_from_50sma ≥ 0 ∧ pi.distance_from_200sma ≥ 0 then 8
   else 3) +
  (if pi.slope_50 > 0.05 ∧ pi.slope_200 > 0.03 then 15
   else if pi.slope_50 > 0.02 ∧ pi.slope_200 > 0.01 then 10
   else if pi.slope_50 > 0 ∧ pi.slope_200 > 0 then 5
   else 0)

/-- Stage-1 transition ladder of `score_buy_signal` (lines 121-146): a
12-point proximity ladder plus a 13-point golden-cross ladder. -/
def stage1Transition (pi : PhaseInfo) : Int :=
  (if pi.distance_from_50sma ≥ -2 ∧ pi.distance_from_50sma < 5 then 12
   else if pi.distance_from_50sma ≥ -5 then 8
   else 3) +
  (if pi.sma_50 > pi.sma_200 ∧ pi.slope_50 > 0 then 13
   else if pi.sma_50 > pi.sma_200 * 0.98 then 8
   else 3)

/-- Raw trend score of `score_buy_signal` (lines 77-161): stage ladder
for the phase, +10 on a breakout, then the over-extension penalty
(−10 above 30% over the 50-SMA, −5 above 20%). -/
def buyTrendScore (pi : PhaseInfo) (breakout : BreakoutInfo) : Int :=
  let base : Int :=
    if pi.phase = 2 then stage2Quality pi
    else if pi.phase = 1 then stage1Transition pi
    else 0
  let withBreakout : Int := if breakout.is_breakout then base + 10 else base
  if pi.distance_from_50sma > 30 then withBreakout - 10
  else if pi.distance_from_50sma > 20 then withBreakout - 5
  else withBreakout

/-- Fundamental score of `score_buy_signal` (lines 169-216): growth
ladder (15) + inventory ladder (10) + fixed 5-point margin placeholder;
a missing fundamentals dict scores a neutral 15. -/
def buyFundamentalScore (fundamentals : Option Fundamentals) : Int :=
  match fundamentals with
  | none => 15
  | some f =>
    (if f.revenue_trend = "accelerating" ∧ f.eps_trend = "accelerating" then 15
     else if f.revenue_trend = "accelerating" ∨ f.eps_trend = "accelerating" then 12
     else if f.revenue_trend = "growing" ∧ f.eps_trend = "growing" then 10
     else if f.revenue_trend = "growing" ∨ f.eps_trend = "growing" then 7
     else if f.revenue_trend = "flat" ∧ f.eps_trend = "flat" then 3
     else 0) +
    (if f.inventory_signal = "neutral" ∨ f.inventory_signal = "unknown" then 10
     else if f.inventory_signal = "caution" then 5
     else 0) +
    5

/-- Volume score of `score_buy_signal` (lines 223-273): with a volume
column and ≥30 rows, compares average volume on up-close days vs
down-close days over the last 5 transitions; otherwise a neutral 5. -/
def buyVolumeScore (pd : PriceData) : Int :=
  if pd.hasVolumeCol ∧ pd.bars.length ≥ 30 then
    let closes := lastN 6 (pd.bars.map Bar.close)
    let vols := lastN 5 (pd.bars.map Bar.volume)
    let r := volLoop closes vols
    let avgVolUp : ℚ := if r.1 > 0 then r.2.2.1 / (r.1 : ℚ) else 0
    let avgVolDown : ℚ := if r.2.1 > 0 then r.2.2.2 / (r.2.1 : ℚ) else 0
    if avgVolUp > avgVolDown * 1.3 then 10
    else if avgVolUp > avgVolDown then 7
    else if avgVolDown > avgVolUp * 1.3 then 0
    else 4
  else 5

/-- RS score of `score_buy_signal` (lines 280-310): with ≥20 RS periods,
a six-tier ladder on the 20-period RS slope; otherwise a neutral 5.
`rsSlope20` is the external `calculate_rs_slope(rs_series, 20)`. -/
def buyRsScore (rsLen : Nat) (rsSlope20 : ℚ) : Int :=
  if rsLen ≥ 20 then
    if rsSlope20 ≥ 3.0 then 10
    else if rsSlope20 ≥ 2.0 then 8
    else if rsSlope20 ≥ 1.0 then 6
    else if rsSlope20 ≥ 0.5 then 4
    else if rsSlope20 ≥ 0 then 2
    else 0
  else 5

/-- The sub-scores `score_buy_signal` records in `details` (each key is
present only on the code path that writes it). -/
structure BuyDetails where
  trend_score : Option Int
  fundamental_score : Option Int
  volume_score : Option Int
  rs_score : Option Int
deriving Repr, DecidableEq

/-- The dict returned by `score_buy_signal`.  `phase := none` models the
absence of the `phase` key (the wrong-phase record does not set it);
`reason` is the single string of the wrong-phase record. -/
structure BuyRecord where
  ticker : String
  is_buy : Bool
  score : Int
  phase : Option Int
  breakout_price : Option ℚ
  reason : Option String
  details : BuyDetails
deriving Repr, DecidableEq

/-- Everything `score_buy_signal` consumes: its direct arguments, with
the RS series represented by its length and the slope the external
collaborator computes from it, and the `detect_breakout` result it
obtains for `(price_data, current_price, phase_info)`. -/
structure BuyInput where
  ticker : String
  priceData : PriceData
  current_price : ℚ
  phase_info : PhaseInfo
  rsLen : Nat
  rsSlope20 : ℚ
  fundamentals : Option Fundamentals
  breakout : BreakoutInfo
deriving Repr, DecidableEq

/-- Embedding of `score_buy_signal` (signal_engine.py lines 27-328).  Phases other
than 1 and 2 short-circuit to an inert record; otherwise the composite
is `min(trend, 50) + fundamental + volume + rs`, clamped to [0,100],
with `is_buy = (final_score >= 60)`. -/
def score_buy_signal (inp : BuyInput) : BuyRecord :=
  let phase := inp.phase_info.phase
  if ¬ (phase = 1 ∨ phase = 2) then
    { ticker := inp.ticker
      is_buy := false
      score := 0
      phase := none
      breakout_price := none
      reason := some ("Wrong phase (Phase " ++ toString phase ++ ")")
      details := ⟨none, none, none, none⟩ }
  else
    let trendContrib : Int := min (buyTrendScore inp.phase_info inp.breakout) 50
    let fundamental : Int := buyFundamentalScore inp.fundamentals
    let volume : Int := buyVolumeScore inp.priceData
    let rs : Int := buyRsScore inp.rsLen inp.rsSlope20
    let score : Int := trendContrib + fundamental + volume + rs
    let final_score : Int := max 0 (min score 100)
    { ticker := inp.ticker
      is_buy := decide (final_score ≥ 60)
      score := final_score
      phase := some phase
      breakout_price := if inp.breakout.is_breakout then inp.breakout.breakout_level else none
      reason := none
      details := ⟨some trendContrib, some fundamental, some volume, some rs⟩ }

/-- Breakdown-structure score of `score_sell_signal` (lines 377-412):
phase-transition component, position-below-50-SMA component, and the
declining-50-SMA component.  (With `sma_50 = 0` and a negative price
the Python expression divides by zero; ℚ division-by-zero yields 0, a
malformed-input corner the module's contract excludes.) -/
def sellBreakdownScore (previous_phase : Option Int) (pi : PhaseInfo)
    (current_price : ℚ) : Int :=
  (if previous_phase = some 2 ∧ (pi.phase = 3 ∨ pi.phase = 4) then 30
   else if pi.phase = 4 then 25
   else if pi.phase = 3 then 15
   else 0) +
  (if current_price < pi.sma_50 then
    let pct_below : ℚ := (pi.sma_50 - current_price) / pi.sma_50 * 100
    if pct_below > 5 then 20
    else if pct_below > 2 then 15
    else 10
   else 0) +
  (if pi.slope_50 < 0 then 10 else 0)

/-- Volume-confirmation score of `score_sell_signal` (lines 418-440):
with a volume column and ≥20 rows, a four-tier ladder on the volume
ratio vs the trailing-20 average (the external
`calculate_volume_ratio(volume, 20)`); otherwise it stays 0. -/
def sellVolumeScore (pd : PriceData) (volumeRatio20 : ℚ) : Int :=
  if pd.hasVolumeCol ∧ pd.bars.length ≥ 20 then
    if volumeRatio20 ≥ 1.5 then 30
    else if volumeRatio20 ≥ 1.3 then 20
    else if volumeRatio20 ≥ 1.1 then 10
    else 5
  else 0

/-- RS-weakness score of `score_sell_signal` (lines 443-465): with ≥15
RS periods, points only for a negative 15-period RS slope (the external
`calculate_rs_slope(rs_series, 15)`); otherwise it stays 0. -/
def sellRsScore (rsLen : Nat) (rsSlope15 : ℚ) : Int :=
  if rsLen ≥ 15 then
    if rsSlope15 < 0 then
      if rsSlope15 < -2.0 then 10
      else if rsSlope15 < -1.0 then 7
      else 5
    else 0
  else 0

/-- Failed-breakout bonus of `score_sell_signal` (lines 468-473): +10
when there are ≥20 closes, the trailing-20 high is above the 50-SMA
and the current price is back below it. -/
def failedBreakoutBonus (pd : PriceData) (pi : PhaseInfo)
    (current_price : ℚ) : Int :=
  if pd.bars.length ≥ 20 ∧
      listMax (lastN 20 (pd.bars.map Bar.close)) > pi.sma_50 ∧
      current_price < pi.sma_50 then 10
  else 0

/-- The severity ladder applied to the final clamped sell score
(lines 479-486). -/
def sellSeverity (final_score : ℚ) : String :=
  if final_score ≥ 80 then "critical"
  else if final_score ≥ 70 then "high"
  else if final_score ≥ 60 then "medium"
  else "low"

/-- The sub-scores `score_sell_signal` records in `details`
(`breakdown_score` only on the scored path; `volume_score` and
`rs_score` are written unconditionally there). -/
structure SellDetails where
  breakdown_score : Option Int
  volume_score : Option Int
  rs_score : Option Int
deriving Repr, DecidableEq

/-- The dict returned by `score_sell_signal`.  As with buys,
`phase := none` models the absence of the `phase` key in the
wrong-phase record; `breakdown_level` is `details.get("breakdown_level")`
(stored unrounded; the code stores `round(sma_50, 2)`, display
precision only). -/
structure SellRecord where
  ticker : String
  is_sell : Bool
  score : Int
  severity : String
  phase : Option Int
  breakdown_level : Option ℚ
  reason : Option String
  details : SellDetails
deriving Repr, DecidableEq

/-- Everything `score_sell_signal` consumes, with the RS series
represented by its length and its 15-period slope, and the volume
ratio computed by the external collaborator. -/
structure SellInput where
  ticker : String
  priceData : PriceData
  current_price : ℚ
  phase_info : PhaseInfo
  rsLen : Nat
  rsSlope15 : ℚ
  volumeRatio20 : ℚ
  previous_phase : Option Int
deriving Repr, DecidableEq

/-- Embedding of `score_sell_signal` (signal_engine.py lines 331-500).  Phases other
than 3 and 4 short-circuit to an inert record with severity `none`;
otherwise the composite is `min(breakdown, 60) + volume + rs` plus the
failed-breakout bonus, clamped to [0,100], with severity from the
final clamped score and `is_sell = (final_score >= 60)`. -/
def score_sell_signal (inp : SellInput) : SellRecord :=
  let phase := inp.phase_info.phase
  if ¬ (phase = 3 ∨ phase = 4) then
    { ticker := inp.ticker
      is_sell := false
      score := 0
      severity := "none"
      phase := none
      breakdown_level := none
      reason := some ("No sell signal (Phase " ++ toString phase ++ ")")
      details := ⟨none, none, none⟩ }
  else
    let breakdownContrib : Int :=
      min (sellBreakdownScore inp.previous_phase inp.phase_info inp.current_price) 60
    let volume : Int := sellVolumeScore inp.priceData inp.volumeRatio20
    let rs : Int := sellRsScore inp.rsLen inp.rsSlope15
    let score : Int :=
      breakdownContrib + volume + rs +
        failedBreakoutBonus inp.priceData inp.phase_info inp.current_price
    let final_score : Int := max 0 (min score 100)
    { ticker := inp.ticker
      is_sell := decide (final_score ≥ 60)
      score := final_score
      severity := sellSeverity (final_score : ℚ)
      phase := some phase
      breakdown_level :=
        if inp.current_price < inp.phase_info.sma_50 then some inp.phase_info.sma_50
        else none
      reason := none
      details := ⟨some breakdownContrib, some volume, some rs⟩ }

/-
Benchmark module: `src/screening/benchmark.py`.
-/

/-- One entry of the `phase_results` list fed to
`calculate_market_breadth`: only `result.get("phase", 0)` is read, so
a result is its phase (a missing key is the phase 0). -/
structure PhaseResult where
  phase : Int
deriving Repr, DecidableEq

/-- Round half to even at integer precision, the Python `round` semantics
on exact values (binary floating-point representation error is not
modelled). -/
def roundHalfEven (x : ℚ) : Int :=
  if x - Int.floor x < 1 / 2 then Int.floor x
  else if x - Int.floor x > 1 / 2 then Int.floor x + 1
  else if Int.floor x % 2 = 0 then Int.floor x
  else Int.floor x + 1

/-- The Python `round(x, n)` on exact rationals. -/
def pyRound (x : ℚ) (n : Nat) : ℚ :=
  (roundHalfEven (x * 10 ^ n) : ℚ) / 10 ^ n

/-- Number of entries classified in phase `p` (the `phase_counts`
tally loop of `calculate_market_breadth`, lines 96-100). -/
def countPhase (p : Int) (phase_results : List PhaseResult) : Nat :=
  (phase_results.filter (fun r => r.phase = p)).length

/-- The dict returned by `calculate_market_breadth`. -/
structure BreadthSnapshot where
  total_stocks : Nat
  phase_1_count : Nat
  phase_2_count : Nat
  phase_3_count : Nat
  phase_4_count : Nat
  phase_1_pct : ℚ
  phase_2_pct : ℚ
  phase_3_pct : ℚ
  phase_4_pct : ℚ
  breadth_quality : String
deriving Repr, DecidableEq

/-- Embedding of `calculate_market_breadth` (benchmark.py lines 70-129): empty input
yields the all-zero `unknown` snapshot; otherwise per-phase counts,
percentages over the full result count (rounded to one decimal in the
returned dict), and a quality label from the unrounded phase-2
percentage. -/
def calculate_market_breadth (phase_results : List PhaseResult) : BreadthSnapshot :=
  if phase_results.isEmpty then
    ⟨0, 0, 0, 0, 0, 0, 0, 0, 0, "unknown"⟩
  else
    let total : Nat := phase_results.length
    let c1 := countPhase 1 phase_results
    let c2 := countPhase 2 phase_results
    let c3 := countPhase 3 phase_results
    let c4 := countPhase 4 phase_results
    let p1 : ℚ := if total > 0 then (c1 : ℚ) / (total : ℚ) * 100 else 0
    let p2 : ℚ := if total > 0 then (c2 : ℚ) / (total : ℚ) * 100 else 0
    let p3 : ℚ := if total > 0 then (c3 : ℚ) / (total : ℚ) * 100 else 0
    let p4 : ℚ := if total > 0 then (c4 : ℚ) / (total : ℚ) * 100 else 0
    let quality : String :=
      if p2 > 50 then "Excellent"
      else if p2 > 30 then "Good"
      else if p2 > 15 then "Fair"
      else "Weak"
    ⟨total, c1, c2, c3, c4, pyRound p1 1, pyRound p2 1, pyRound p3 1, pyRound p4 1, quality⟩

/-- Embedding of `classify_market_regime` (benchmark.py lines 132-163), a function of
`spy_analysis.get("phase", 0)` and `breadth.get("phase_2_pct", 0)`:
the if/elif decision table, evaluated top-down. -/
def classify_market_regime (spy_phase : Int) (phase_2_pct : ℚ) : String :=
  if spy_phase = 2 ∧ phase_2_pct > 40 then "RISK-ON (Strong)"
  else if spy_phase = 2 ∧ phase_2_pct > 25 then "RISK-ON (Moderate)"
  else if spy_phase = 2 ∨ (spy_phase = 1 ∧ phase_2_pct > 30) then "RISK-ON (Weak) / Mixed"
  else if spy_phase = 4 ∨ phase_2_pct < 15 then "RISK-OFF"
  else "TRANSITIONAL / Uncertain"

/-- The dict returned by `should_generate_signals` (the `reasons` list
is display-only and not modelled). -/
structure RegimeDecision where
  should_generate_buys : Bool
  should_generate_sells : Bool
  regime : String
  phase_2_pct : ℚ
  spy_phase : Int
deriving Repr, DecidableEq

/-- Embedding of `should_generate_signals` (benchmark.py lines 219-258): buys only
when the benchmark phase is 2 or 1 and the phase-2 percentage meets
`min_phase2_pct` (the Python default is 15.0); sells always.  Inputs
are `spy_analysis.get("phase", 0)` and `breadth.get("phase_2_pct", 0)`. -/
def should_generate_signals (spy_phase : Int) (phase_2_pct : ℚ)
    (min_phase2_pct : ℚ) : RegimeDecision :=
  let should_buy : Bool :=
    if spy_phase = 2 ∨ spy_phase = 1 then decide (phase_2_pct ≥ min_phase2_pct)
    else false
  { should_generate_buys := should_buy
    should_generate_sells := true
    regime := classify_market_regime spy_phase phase_2_pct
    phase_2_pct := phase_2_pct
    spy_phase := spy_phase }

/-
Concrete inputs used by the worked examples, counterexamples and
witnesses below.
-/

/-- A breakout-detector result reporting no breakout. -/
def noBreakout : BreakoutInfo := ⟨false, "", none⟩

/-- The worked example of spec §8: phase 2, 6% above the 50-SMA, 12%
above the 200-SMA, slopes 0.06 and 0.04, no breakout, no fundamentals,
fewer than 30 volume periods and fewer than 20 RS periods. -/
def c9Input : BuyInput :=
  ⟨"AAPL", ⟨List.replicate 10 ⟨100, 1000⟩, true⟩, 100,
    ⟨2, 95, 90, 0.06, 0.04, 6, 12⟩, 10, 0, none, noBreakout⟩

/-- A phase-2 input 35% above the 50-SMA but below the 200-SMA with flat
slopes: distance ladder 3, slope ladder 0, no breakout, over-extension
penalty −10, so the raw trend score is −7. -/
def c2Input : BuyInput :=
  ⟨"XYZ", ⟨[], false⟩, 130, ⟨2, 100, 140, 0, 0, 35, -1⟩, 0, 0, none, noBreakout⟩

/-- A phase-0 buy input (ineligible phase). -/
def c3BuyInput : BuyInput :=
  ⟨"MSFT", ⟨[], false⟩, 50, ⟨0, 0, 0, 0, 0, 0, 0⟩, 0, 0, none, noBreakout⟩

/-- A phase-0 sell input (ineligible phase). -/
def c3SellInput : SellInput :=
  ⟨"MSFT", ⟨[], false⟩, 50, ⟨0, 0, 0, 0, 0, 0, 0⟩, 0, 0, 0, none⟩

/-- A phase-3 buy input (ineligible for buys). -/
def c4BuyInput : BuyInput :=
  ⟨"TSLA", ⟨[], false⟩, 10, ⟨3, 0, 0, 0, 0, 0, 0⟩, 0, 0, none, noBreakout⟩

/-- A phase-2 sell input (ineligible for sells). -/
def c4SellInput : SellInput :=
  ⟨"TSLA", ⟨[], false⟩, 10, ⟨2, 0, 0, 0, 0, 0, 0⟩, 0, 0, 0, none⟩

/-- A one-ticker universe entirely in phase 2. -/
def c8List : List PhaseResult := [⟨2⟩]

/-- A non-empty universe in which every ticker has unknown phase 0. -/
def allPhase0 : List PhaseResult := [⟨0⟩, ⟨0⟩, ⟨0⟩]

/-- A universe with one unknown-phase ticker and one phase-2 ticker. -/
def mixedPhase : List PhaseResult := [⟨0⟩, ⟨2⟩]

/-
Helper bounds on the buy trend ladders.
-/

theorem stage2Quality_bounds (pi : PhaseInfo) :
    3 ≤ stage2Quality pi ∧ stage2Quality pi ≤ 30 := by
  simp only [stage2Quality]
  split_ifs <;> omega

theorem stage1Transition_bounds (pi : PhaseInfo) :
    6 ≤ stage1Transition pi ∧ stage1Transition pi ≤ 25 := by
  simp only [stage1Transition]
  split_ifs <;> omega

theorem buyTrendScore_lower (pi : PhaseInfo) (b : BreakoutInfo)
    (h : pi.phase = 1 ∨ pi.phase = 2) : -7 ≤ buyTrendScore pi b := by
  have h2 := stage2Quality_bounds pi
  have h1 := stage1Transition_bounds pi
  simp only [buyTrendScore]
  split_ifs <;> simp_all <;> omega

/-- Claim C1: for every input, the score on the record returned by
`score_buy_signal` and by `score_sell_signal` lies in [0, 100], and the
`is_buy` (respectively `is_sell`) flag is true iff that score is at
least 60; this holds on the inert records returned for ineligible
phases as well. -/
theorem C1_score_clamped_and_threshold (binp : BuyInput) (sinp : SellInput) :
    (0 ≤ (score_buy_signal binp).score ∧ (score_buy_signal binp).score ≤ 100 ∧
      ((score_buy_signal binp).is_buy = true ↔ 60 ≤ (score_buy_signal binp).score)) ∧
    (0 ≤ (score_sell_signal sinp).score ∧ (score_sell_signal sinp).score ≤ 100 ∧
      ((score_sell_signal sinp).is_sell = true ↔ 60 ≤ (score_sell_signal sinp).score)) := by
  constructor
  · simp only [score_buy_signal]
    split_ifs <;> simp
  · simp only [score_sell_signal]
    split_ifs <;> simp

/-- Claim C2 fails on the code: with phase 2, 35% above the 50-SMA
(over-extension penalty −10), below the 200-SMA and flat slopes
(ladder minimum 3 + 0), the trend sub-score added into the composite is
−7, below the floor of 0 the claim states: the code takes
`min(trend_score, 50)` and never clamps below. -/
theorem C2_counterexample_trend_below_zero :
    c2Input.phase_info.phase = 2 ∧
    (score_buy_signal c2Input).details.trend_score = some (-7) := by
  constructor
  · rfl
  · simp only [score_buy_signal, buyTrendScore, stage2Quality, stage1Transition,
      c2Input, noBreakout]
    norm_num

/-- Claim C2 (amended): in `score_buy_signal` the trend/stage sub-score
added into the composite is `min(trend_score, 50)`: for every input
with phase in {1,2}, after the over-extension penalty the trend
contribution is never above 50, and never below −7 (there is no lower
clamp at 0). -/
theorem C2_amended_trend_contribution (inp : BuyInput)
    (h : inp.phase_info.phase = 1 ∨ inp.phase_info.phase = 2) :
    (score_buy_signal inp).details.trend_score =
      some (min (buyTrendScore inp.phase_info inp.breakout) 50) ∧
    -7 ≤ min (buyTrendScore inp.phase_info inp.breakout) 50 ∧
    min (buyTrendScore inp.phase_info inp.breakout) 50 ≤ 50 := by
  refine ⟨?_, le_min (buyTrendScore_lower inp.phase_info inp.breakout h) (by norm_num),
    min_le_right _ _⟩
  simp only [score_buy_signal]
  rw [if_neg (not_not_intro h)]

/-- Witness for the amended claim C2 at the concrete phase-2 input. -/
theorem C2_amended_trend_contribution_witness :
    (score_buy_signal c2Input).details.trend_score =
      some (min (buyTrendScore c2Input.phase_info c2Input.breakout) 50) ∧
    -7 ≤ min (buyTrendScore c2Input.phase_info c2Input.breakout) 50 ∧
    min (buyTrendScore c2Input.phase_info c2Input.breakout) 50 ≤ 50 :=
  C2_amended_trend_contribution c2Input (Or.inr rfl)

/-- Claim C3 fails on the code: the inert records returned for
ineligible phases carry no `phase` field at all — on a phase-0 input
both engines return a record whose `phase` key is absent. -/
theorem C3_counterexample_inert_omits_phase :
    (score_buy_signal c3BuyInput).phase = none ∧
    (score_sell_signal c3SellInput).phase = none := by
  constructor <;> rfl

/-- Claim C3 (amended): a record returned for an eligible phase carries
a `phase` field equal to the phase supplied in the input `PhaseInfo`
(the engine never reclassifies it); the inert records returned for
ineligible phases omit the `phase` field. -/
theorem C3_amended_phase_field (binp : BuyInput) (sinp : SellInput) :
    (score_buy_signal binp).phase =
      (if binp.phase_info.phase = 1 ∨ binp.phase_info.phase = 2
       then some binp.phase_info.phase else none) ∧
    (score_sell_signal sinp).phase =
      (if sinp.phase_info.phase = 3 ∨ sinp.phase_info.phase = 4
       then some sinp.phase_info.phase else none) := by
  constructor
  · simp only [score_buy_signal]
    split_ifs <;> simp_all
  · simp only [score_sell_signal]
    split_ifs <;> simp_all

/-- Claim C4: for every `PhaseInfo` with phase outside {1,2},
`score_buy_signal` short-circuits to an inert record with
`is_buy = false`, `score = 0` and a reason naming the disqualifying
phase; for every `PhaseInfo` with phase outside {3,4},
`score_sell_signal` short-circuits to an inert record with
`is_sell = false` and severity `"none"`.  The embedding is a total
function: both paths return records rather than raising. -/
theorem C4_wrong_phase_inert (binp : BuyInput) (sinp : SellInput)
    (hb : ¬ (binp.phase_info.phase = 1 ∨ binp.phase_info.phase = 2))
    (hs : ¬ (sinp.phase_info.phase = 3 ∨ sinp.phase_info.phase = 4)) :
    ((score_buy_signal binp).is_buy = false ∧
      (score_buy_signal binp).score = 0 ∧
      (score_buy_signal binp).reason =
        some ("Wrong phase (Phase " ++ toString binp.phase_info.phase ++ ")")) ∧
    ((score_sell_signal sinp).is_sell = false ∧
      (score_sell_signal sinp).score = 0 ∧
      (score_sell_signal sinp).severity = "none" ∧
      (score_sell_signal sinp).reason =
        some ("No sell signal (Phase " ++ toString sinp.phase_info.phase ++ ")")) := by
  constructor
  · simp only [score_buy_signal]
    rw [if_pos hb]
    exact ⟨rfl, rfl, rfl⟩
  · simp only [score_sell_signal]
    rw [if_pos hs]
    exact ⟨rfl, rfl, rfl, rfl⟩

/-- Witness for claim C4 at a phase-3 buy input and a phase-2 sell
input. -/
theorem C4_wrong_phase_inert_witness :
    ((score_buy_signal c4BuyInput).is_buy = false ∧
      (score_buy_signal c4BuyInput).score = 0 ∧
      (score_buy_signal c4BuyInput).reason =
        some ("Wrong phase (Phase " ++ toString c4BuyInput.phase_info.phase ++ ")")) ∧
    ((score_sell_signal c4SellInput).is_sell = false ∧
      (score_sell_signal c4SellInput).score = 0 ∧
      (score_sell_signal c4SellInput).severity = "none" ∧
      (score_sell_signal c4SellInput).reason =
        some ("No sell signal (Phase " ++ toString c4SellInput.phase_info.phase ++ ")")) :=
  C4_wrong_phase_inert c4BuyInput c4SellInput (by decide) (by decide)

/-- Claim C5: sell severity is a deterministic, non-overlapping function
of the final clamped score — on every eligible-phase input the record
severity is the threshold ladder (≥80 critical, ≥70 high, ≥60 medium,
else low) applied to the record score — and that ladder maps scores
80, 79.9, 70, 69.9, 60, 59.9 to critical, high, high, medium, medium,
low respectively. -/
theorem C5_sell_severity_thresholds (sinp : SellInput) (s : ℚ) :
    ((score_sell_signal sinp).severity =
      if sinp.phase_info.phase = 3 ∨ sinp.phase_info.phase = 4
      then sellSeverity (((score_sell_signal sinp).score : Int) : ℚ)
      else "none") ∧
    (sellSeverity s =
      if s ≥ 80 then "critical"
      else if s ≥ 70 then "high"
      else if s ≥ 60 then "medium"
      else "low") ∧
    sellSeverity 80 = "critical" ∧ sellSeverity (799 / 10) = "high" ∧
    sellSeverity 70 = "high" ∧ sellSeverity (699 / 10) = "medium" ∧
    sellSeverity 60 = "medium" ∧ sellSeverity (599 / 10) = "low" := by
  refine ⟨?_, rfl, ?_, ?_, ?_, ?_, ?_, ?_⟩
  · simp only [score_sell_signal]
    split_ifs <;> simp_all
  all_goals simp only [sellSeverity]
  all_goals norm_num

/-- Claim C6: `classify_market_regime` evaluates its decision table in
order with first match winning: phase 2 with breadth above 40 is
Strong; phase 2 above 25 is Moderate; phase 2 otherwise, or phase 1
above 30, is Weak/Mixed; phase 4, or breadth below 15 when no earlier
rule fired, is RISK-OFF; everything else is transitional.  In
particular phase 2 with breadth 45 yields Strong even though the
Moderate and Weak predicates also hold of that input. -/
theorem C6_regime_first_match (p : Int) (pct : ℚ) :
    (40 < pct → classify_market_regime 2 pct = "RISK-ON (Strong)") ∧
    (25 < pct → pct ≤ 40 → classify_market_regime 2 pct = "RISK-ON (Moderate)") ∧
    (pct ≤ 25 → classify_market_regime 2 pct = "RISK-ON (Weak) / Mixed") ∧
    (30 < pct → classify_market_regime 1 pct = "RISK-ON (Weak) / Mixed") ∧
    classify_market_regime 4 pct = "RISK-OFF" ∧
    (p ≠ 2 → p ≠ 4 → ¬(p = 1 ∧ 30 < pct) → pct < 15 →
      classify_market_regime p pct = "RISK-OFF") ∧
    (p ≠ 2 → p ≠ 4 → ¬(p = 1 ∧ 30 < pct) → 15 ≤ pct →
      classify_market_regime p pct = "TRANSITIONAL / Uncertain") ∧
    (classify_market_regime 2 45 = "RISK-ON (Strong)" ∧
      ((2 : Int) = 2 ∧ (25 : ℚ) < 45) ∧
      ((2 : Int) = 2 ∨ ((2 : Int) = 1 ∧ (30 : ℚ) < 45))) := by
  refine ⟨?_, ?_, ?_, ?_, ?_, ?_, ?_, ?_, ?_, ?_⟩
  · intro h40
    unfold classify_market_regime
    rw [if_pos ⟨rfl, h40⟩]
  · intro h25 h40
    unfold classify_market_regime
    rw [if_neg (fun hc => absurd hc.2 (not_lt.mpr h40)), if_pos ⟨rfl, h25⟩]
  · intro h25
    unfold classify_market_regime
    rw [if_neg (fun hc => absurd hc.2 (not_lt.mpr (by linarith))),
      if_neg (fun hc => absurd hc.2 (not_lt.mpr h25)), if_pos (Or.inl rfl)]
  · intro h30
    unfold classify_market_regime
    rw [if_neg (fun hc => absurd hc.1 (by norm_num)),
      if_neg (fun hc => absurd hc.1 (by norm_num)),
      if_pos (Or.inr ⟨rfl, h30⟩)]
  · unfold classify_market_regime
    rw [if_neg (fun hc => absurd hc.1 (by norm_num)),
      if_neg (fun hc => absurd hc.1 (by norm_num)),
      if_neg (fun hc => hc.elim (fun h => absurd h (by norm_num))
        (fun h => absurd h.1 (by norm_num))),
      if_pos (Or.inl rfl)]
  · intro hp2 hp4 hp1 hlt
    unfold classify_market_regime
    rw [if_neg (fun hc => hp2 hc.1), if_neg (fun hc => hp2 hc.1),
      if_neg (fun hc => hc.elim hp2 hp1), if_pos (Or.inr hlt)]
  · intro hp2 hp4 hp1 h15
    unfold classify_market_regime
    rw [if_neg (fun hc => hp2 hc.1), if_neg (fun hc => hp2 hc.1),
      if_neg (fun hc => hc.elim hp2 hp1),
      if_neg (fun hc => hc.elim hp4 (fun hl => absurd hl (not_lt.mpr h15)))]
  · unfold classify_market_regime
    rw [if_pos ⟨rfl, by norm_num⟩]
  · exact ⟨rfl, by norm_num⟩
  · exact Or.inl rfl

/-- Witness for claim C6, instantiating several rows of the table. -/
theorem C6_regime_first_match_witness :
    classify_market_regime 2 45 = "RISK-ON (Strong)" ∧
    classify_market_regime 2 30 = "RISK-ON (Moderate)" ∧
    classify_market_regime 2 10 = "RISK-ON (Weak) / Mixed" ∧
    classify_market_regime 1 35 = "RISK-ON (Weak) / Mixed" ∧
    classify_market_regime 4 35 = "RISK-OFF" ∧
    classify_market_regime 3 10 = "RISK-OFF" ∧
    classify_market_regime 3 20 = "TRANSITIONAL / Uncertain" :=
  ⟨(C6_regime_first_match 3 45).1 (by norm_num),
   (C6_regime_first_match 3 30).2.1 (by norm_num) (by norm_num),
   (C6_regime_first_match 3 10).2.2.1 (by norm_num),
   (C6_regime_first_match 3 35).2.2.2.1 (by norm_num),
   (C6_regime_first_match 3 35).2.2.2.2.1,
   (C6_regime_first_match 3 10).2.2.2.2.2.1 (by norm_num) (by norm_num)
     (by norm_num) (by norm_num),
   (C6_regime_first_match 3 20).2.2.2.2.2.2.1 (by norm_num) (by norm_num)
     (by norm_num) (by norm_num)⟩

/-- Claim C7: `should_generate_signals` always enables sell generation,
and enables buy generation exactly when the benchmark phase is 1 or 2
and the breadth phase-2 percentage is at least the `min_phase2_pct`
threshold (whose Python default is 15.0). -/
theorem C7_gate_asymmetry (p : Int) (pct minp : ℚ) :
    (should_generate_signals p pct minp).should_generate_sells = true ∧
    ((should_generate_signals p pct minp).should_generate_buys = true ↔
      ((p = 1 ∨ p = 2) ∧ minp ≤ pct)) := by
  constructor
  · rfl
  · simp only [should_generate_signals]
    split_ifs with h
    · simp only [decide_eq_true_eq, ge_iff_le]
      constructor
      · exact fun hph => ⟨h.symm.imp id id, hph⟩
      · exact fun hc => hc.2
    · simp only [Bool.false_eq_true, false_iff]
      exact fun hc => h (hc.1.symm.imp id id)

/-- Claim C8: `calculate_market_breadth` on an empty list returns the
all-zero snapshot with quality `"unknown"` (a total function — it does
not raise), and on non-empty input the quality label is determined from
the phase-2 percentage by >50 Excellent, >30 Good, >15 Fair, else
Weak. -/
theorem C8_breadth_empty_and_quality (rs : List PhaseResult) (h : rs ≠ []) :
    calculate_market_breadth [] = ⟨0, 0, 0, 0, 0, 0, 0, 0, 0, "unknown"⟩ ∧
    (calculate_market_breadth rs).breadth_quality =
      (if (countPhase 2 rs : ℚ) / (rs.length : ℚ) * 100 > 50 then "Excellent"
       else if (countPhase 2 rs : ℚ) / (rs.length : ℚ) * 100 > 30 then "Good"
       else if (countPhase 2 rs : ℚ) / (rs.length : ℚ) * 100 > 15 then "Fair"
       else "Weak") := by
  have h0 : rs.isEmpty = false := by simpa [List.isEmpty_iff] using h
  have hlen : 0 < rs.length := List.length_pos.mpr h
  constructor
  · rfl
  · simp only [calculate_market_breadth, h0, Bool.false_eq_true, if_false, hlen, if_pos]

/-- Witness for claim C8 on the one-ticker phase-2 universe. -/
theorem C8_breadth_empty_and_quality_witness :
    (calculate_market_breadth c8List).breadth_quality = "Excellent" := by
  have h := C8_breadth_empty_and_quality c8List (by simp [c8List])
  rw [h.2]
  norm_num [c8List, countPhase, List.filter]

/-- Claim C10: in `calculate_market_breadth` the denominator of every
phase percentage is the total number of input results, phase-0 entries
included, so the four percentages can sum to under 100; a non-empty
all-phase-0 universe yields `phase_2_pct = 0` with quality `"Weak"`
(not `"unknown"`), and a universe of one phase-0 and one phase-2
ticker yields `phase_2_pct = 50`. -/
theorem C10_breadth_denominator (rs : List PhaseResult) (h : rs ≠ []) :
    (calculate_market_breadth rs).total_stocks = rs.length ∧
    (calculate_market_breadth rs).phase_2_pct =
      pyRound ((countPhase 2 rs : ℚ) / (rs.length : ℚ) * 100) 1 ∧
    (calculate_market_breadth allPhase0).phase_2_pct = 0 ∧
    (calculate_market_breadth allPhase0).breadth_quality = "Weak" ∧
    (calculate_market_breadth allPhase0).phase_1_pct
        + (calculate_market_breadth allPhase0).phase_2_pct
        + (calculate_market_breadth allPhase0).phase_3_pct
        + (calculate_market_breadth allPhase0).phase_4_pct < 100 ∧
    (calculate_market_breadth mixedPhase).phase_2_pct = 50 := by
  have h0 : rs.isEmpty = false := by simpa [List.isEmpty_iff] using h
  have hlen : 0 < rs.length := List.length_pos.mpr h
  refine ⟨?_, ?_, ?_, ?_, ?_, ?_⟩
  · simp only [calculate_market_breadth, h0, Bool.false_eq_true, if_false]
  · simp only [calculate_market_breadth, h0, Bool.false_eq_true, if_false, hlen, if_pos]
  all_goals
    simp only [calculate_market_breadth, allPhase0, mixedPhase, countPhase, pyRound,
      roundHalfEven, List.filter]
    norm_num

/-- Witness for claim C10 on the all-phase-0 universe. -/
theorem C10_breadth_denominator_witness :
    (calculate_market_breadth allPhase0).total_stocks = 3 := by
  have h := C10_breadth_denominator allPhase0 (by simp [allPhase0])
  rw [h.1]
  rfl

/-- Claim C9: the spec §8 worked example — phase 2, 6% and 12% above the
50- and 200-SMA, slopes 0.06 and 0.04, no breakout, no fundamentals,
short volume and RS history — scores trend 30, fundamentals 15,
volume 5, RS 5, final score 55, and is not a buy. -/
theorem C9_worked_example :
    (score_buy_signal c9Input).details = ⟨some 30, some 15, some 5, some 5⟩ ∧
    (score_buy_signal c9Input).score = 55 ∧
    (score_buy_signal c9Input).is_buy = false := by
  refine ⟨?_, ?_, ?_⟩ <;>
    · simp only [score_buy_signal, buyTrendScore, stage2Quality, stage1Transition,
        buyFundamentalScore, buyVolumeScore, buyRsScore, c9Input, noBreakout]
      norm_num

end StockScreener
